import Mathlib

/-!
Shallow embedding of `src/transports/P2PTransport.ts` (beacon-sdk P2P
transport): peer registry persisted in storage, channel-opening handshake
listener with its one-shot guard flag, unicast/broadcast send routing, and
the connect/reconnect lifecycle.

Collaborator behaviour (storage writes, crypto-channel calls, event
emission) is modelled by an `Env` of outcome oracles; every collaborator
invocation an operation performs is recorded in an effect trace, and the
operation's own completion is an `Except` (or a `ConnectOutcome` for the
promise returned by `connect`/`reconnect`, which may stay pending).
-/

namespace BeaconP2P

/-- A stored peer record, as pushed into storage by `addPeer` and the
channel-opening callback: `{ name, pubKey, relayServer }`. -/
structure P2PPeer where
  name : String
  pubKey : String
  relayServer : String
deriving DecidableEq, Repr

/-- The `TransportStatus` enum values used for `_isConnected`. -/
inductive TransportStatus where
  | NOT_CONNECTED
  | CONNECTING
  | CONNECTED
deriving DecidableEq, Repr

/-- One collaborator invocation, recorded in the order the code issues it. -/
inductive Effect where
  | clientStart
  | storageGet
  | storageSet (peers : List P2PPeer)
  | listenForChannelOpening
  | getHandshakeInfo
  | emit (event : String) (payload : Option String)
  | openChannel (pubKey relayServer : String)
  | listenForEncryptedMessage (pubKey : String)
  | sendMessage (recipient message : String)
  | unsubscribeFromEncryptedMessage (pubKey : String)
  | unsubscribeFromEncryptedMessages
deriving DecidableEq, Repr

/-- Failures surfaced by the transport's operations: the `Recipient unknown`
throw in `send`, a rejected `storage.set`, a rejected collaborator
channel/listen call, and a rejected `sendMessage`. -/
inductive TransportError where
  | recipientUnknown
  | storageFailure
  | channelFailure (pubKey : String)
  | sendFailure (pubKey : String)
deriving DecidableEq, Repr

/-- Outcome of the promise returned by `connect` / `reconnect` /
`connectNewPeer`: resolved, rejected, or still pending (the
`connectNewPeer` promise only resolves from inside the channel-opening
callback). -/
inductive ConnectOutcome where
  | resolved
  | pending
  | failed (e : TransportError)
deriving DecidableEq, Repr

/-- Collaborator outcome oracles: whether `storage.set` succeeds, whether a
`sendMessage` / `listenForEncryptedMessage` / `openChannel` call for a given
pubKey succeeds, and the advertisement `getHandshakeInfo` returns. -/
structure Env where
  storageSetOk : Bool
  sendOk : String → Bool
  listenOk : String → Bool
  openChannelOk : String → Bool
  handshakeInfo : String

/-- The mutable state of one `P2PTransport` instance together with the
content of the backing store at `StorageKey.TRANSPORT_P2P_PEERS`:
`_isConnected`, the `listeningForChannelOpenings` guard flag, and the
persisted peer list. -/
structure TransportState where
  isConnected : TransportStatus
  listeningForChannelOpenings : Bool
  storedPeers : List P2PPeer
deriving DecidableEq, Repr

/-- Result of an ordinary async method: new state, effect trace, completion. -/
abbrev MethodResult := TransportState × List Effect × Except TransportError Unit

/-- `private async listen(pubKey)`: subscribes to encrypted messages for
`pubKey`; the `.catch((error) => { throw error })` rethrows, so a rejected
subscription rejects `listen` itself. Returns no state change. -/
def listen (env : Env) (pubKey : String) : List Effect × Except TransportError Unit :=
  ([Effect.listenForEncryptedMessage pubKey],
   if env.listenOk pubKey then Except.ok () else Except.error (TransportError.channelFailure pubKey))

/-- Modelled from the spec: the base class `Transport.connect`
(`super.connect()` in `P2PTransport.connect`; the base class is not under
`src/`) transitions the transport state to `Connected`. -/
def superConnect (s : TransportState) : TransportState :=
  { s with isConnected := TransportStatus.CONNECTED }

/-- `connectNewPeer()`: if the guard flag is unset, installs the
`listenForChannelOpening` subscription and sets the flag; in every call it
then fetches `getHandshakeInfo()` and emits it via
`P2P_LISTEN_FOR_CHANNEL_OPEN`. The returned promise resolves only from
inside the channel-opening callback, so it is still pending here. -/
def connectNewPeer (env : Env) (s : TransportState) :
    TransportState × List Effect × ConnectOutcome :=
  let installStep :=
    if s.listeningForChannelOpenings then (s, ([] : List Effect))
    else ({ s with listeningForChannelOpenings := true }, [Effect.listenForChannelOpening])
  (installStep.1,
   installStep.2 ++ [Effect.getHandshakeInfo,
     Effect.emit "P2P_LISTEN_FOR_CHANNEL_OPEN" (some env.handshakeInfo)],
   ConnectOutcome.pending)

/-- The callback passed to `client.listenForChannelOpening`: re-reads the
stored peers; if `pubKey` is unknown it pushes `{ name: '', pubKey,
relayServer: '' }`, persists fire-and-forget (`storage.set(...).catch(log)`:
a storage failure is logged and swallowed, leaving the store unchanged),
then awaits `listen(pubKey)`; finally emits `P2P_CHANNEL_CONNECT_SUCCESS`
(emission failures swallowed) and resolves. A rejected `listen` rejects the
callback before the emit. -/
def channelOpeningCallback (env : Env) (pubKey : String) (s : TransportState) : MethodResult :=
  if s.storedPeers.any (fun p => p.pubKey == pubKey) then
    (s, [Effect.storageGet, Effect.emit "P2P_CHANNEL_CONNECT_SUCCESS" none], Except.ok ())
  else
    let newPeers := s.storedPeers ++ [⟨"", pubKey, ""⟩]
    let s1 := if env.storageSetOk then { s with storedPeers := newPeers } else s
    let listenStep := listen env pubKey
    match listenStep.2 with
    | Except.ok () =>
        (s1, [Effect.storageGet, Effect.storageSet newPeers] ++ listenStep.1
          ++ [Effect.emit "P2P_CHANNEL_CONNECT_SUCCESS" none], Except.ok ())
    | Except.error e =>
        (s1, [Effect.storageGet, Effect.storageSet newPeers] ++ listenStep.1, Except.error e)

/-- `connect()`: sets `_isConnected = CONNECTING`, starts the client, loads
the stored peers; if non-empty it maps every peer to a `listen(peer.pubKey)`
promise (all subscriptions are issued) and awaits `Promise.all` — which
rejects with the first failing listen, skipping `super.connect()`;
otherwise, when in the dApp role, it awaits `connectNewPeer()` (whose
promise stays pending until a pairing arrives, so `super.connect()` is not
reached yet); otherwise it proceeds straight to `super.connect()`. -/
def connect (dApp : Bool) (env : Env) (s : TransportState) :
    TransportState × List Effect × ConnectOutcome :=
  let s1 := { s with isConnected := TransportStatus.CONNECTING }
  let baseEffects := [Effect.clientStart, Effect.storageGet]
  if s1.storedPeers.length > 0 then
    let listenEffects := s1.storedPeers.map (fun p => Effect.listenForEncryptedMessage p.pubKey)
    match s1.storedPeers.find? (fun p => !(env.listenOk p.pubKey)) with
    | some p =>
        (s1, baseEffects ++ listenEffects,
         ConnectOutcome.failed (TransportError.channelFailure p.pubKey))
    | none => (superConnect s1, baseEffects ++ listenEffects, ConnectOutcome.resolved)
  else
    if dApp then
      let step := connectNewPeer env s1
      (step.1, baseEffects ++ step.2.1, ConnectOutcome.pending)
    else
      (superConnect s1, baseEffects, ConnectOutcome.resolved)

/-- `reconnect()`: in the dApp role awaits `connectNewPeer()` again;
otherwise does nothing. It never touches `_isConnected`. -/
def reconnect (dApp : Bool) (env : Env) (s : TransportState) :
    TransportState × List Effect × ConnectOutcome :=
  if dApp then connectNewPeer env s
  else (s, [], ConnectOutcome.resolved)

/-- `addPeer(newPeer)`: reads the stored peers; if none shares
`newPeer.pubKey` it pushes `{ name, pubKey, relayServer }`, awaits the
persist (a rejected `storage.set` propagates and skips the channel setup),
then awaits `openChannel` and `listen` for the new peer. A duplicate is a
no-op beyond the read. -/
def addPeer (env : Env) (newPeer : P2PPeer) (s : TransportState) : MethodResult :=
  if s.storedPeers.any (fun p => p.pubKey == newPeer.pubKey) then
    (s, [Effect.storageGet], Except.ok ())
  else
    let newPeers := s.storedPeers ++ [⟨newPeer.name, newPeer.pubKey, newPeer.relayServer⟩]
    if env.storageSetOk then
      let s1 := { s with storedPeers := newPeers }
      if env.openChannelOk newPeer.pubKey then
        let listenStep := listen env newPeer.pubKey
        (s1, [Effect.storageGet, Effect.storageSet newPeers,
              Effect.openChannel newPeer.pubKey newPeer.relayServer] ++ listenStep.1,
         listenStep.2)
      else
        (s1, [Effect.storageGet, Effect.storageSet newPeers,
              Effect.openChannel newPeer.pubKey newPeer.relayServer],
         Except.error (TransportError.channelFailure newPeer.pubKey))
    else
      (s, [Effect.storageGet, Effect.storageSet newPeers],
       Except.error TransportError.storageFailure)

/-- `removePeer(peerToBeRemoved)`: filters out records whose `pubKey`
matches, awaits the persist (a rejected `storage.set` propagates and skips
the unsubscribe), then awaits `unsubscribeFromEncryptedMessage` for that
pubKey regardless of whether anything was filtered out. -/
def removePeer (env : Env) (peerToBeRemoved : P2PPeer) (s : TransportState) : MethodResult :=
  let newPeers := s.storedPeers.filter (fun p => p.pubKey != peerToBeRemoved.pubKey)
  if env.storageSetOk then
    ({ s with storedPeers := newPeers },
     [Effect.storageGet, Effect.storageSet newPeers,
      Effect.unsubscribeFromEncryptedMessage peerToBeRemoved.pubKey],
     Except.ok ())
  else
    (s, [Effect.storageGet, Effect.storageSet newPeers],
     Except.error TransportError.storageFailure)

/-- `removeAllPeers()`: persists the empty list (a rejected `storage.set`
propagates and skips the unsubscribe), then awaits the bulk
`unsubscribeFromEncryptedMessages`. -/
def removeAllPeers (env : Env) (s : TransportState) : MethodResult :=
  if env.storageSetOk then
    ({ s with storedPeers := [] },
     [Effect.storageSet [], Effect.unsubscribeFromEncryptedMessages],
     Except.ok ())
  else
    (s, [Effect.storageSet []], Except.error TransportError.storageFailure)

/-- `send(message, recipient?)`: reads the stored peers. Unicast: throws
`Recipient unknown` when no stored peer carries `recipient`, else delegates
to one `sendMessage` and returns its outcome. Broadcast: maps every stored
peer to a `sendMessage` promise (all sends are issued) and returns
`(await Promise.all(promises))[0]` — `Promise.all` rejects with the first
failing send's error alone. -/
def send (env : Env) (message : String) (recipient : Option String) (s : TransportState) :
    MethodResult :=
  match recipient with
  | some r =>
      if s.storedPeers.any (fun p => p.pubKey == r) then
        (s, [Effect.storageGet, Effect.sendMessage r message],
         if env.sendOk r then Except.ok () else Except.error (TransportError.sendFailure r))
      else
        (s, [Effect.storageGet], Except.error TransportError.recipientUnknown)
  | none =>
      let sendEffects := s.storedPeers.map (fun p => Effect.sendMessage p.pubKey message)
      match s.storedPeers.find? (fun p => !(env.sendOk p.pubKey)) with
      | some p =>
          (s, Effect.storageGet :: sendEffects,
           Except.error (TransportError.sendFailure p.pubKey))
      | none => (s, Effect.storageGet :: sendEffects, Except.ok ())

/-- Modelled from the spec: the broadcast contract of §4.3 — the call
completes only once every individual send has settled, and any individual
failure surfaces as an aggregate `BroadcastPartialFailure` naming exactly
the failed recipients. -/
def specBroadcastResult (env : Env) (s : TransportState) : Except (List String) Unit :=
  let failed := (s.storedPeers.filter (fun p => !(env.sendOk p.pubKey))).map (fun p => p.pubKey)
  if failed.isEmpty then Except.ok () else Except.error failed

/-- The recipients of the `sendMessage` calls in a trace, in order, paired
with the payload sent. -/
def sendCalls (trace : List Effect) : List (String × String) :=
  trace.filterMap (fun e => match e with
    | Effect.sendMessage r m => some (r, m)
    | _ => none)

/-- The pubKeys of the `listenForEncryptedMessage` calls in a trace. -/
def listenCalls (trace : List Effect) : List String :=
  trace.filterMap (fun e => match e with
    | Effect.listenForEncryptedMessage k => some k
    | _ => none)

/-- The `(pubKey, relayServer)` arguments of the `openChannel` calls in a
trace. -/
def openChannelCalls (trace : List Effect) : List (String × String) :=
  trace.filterMap (fun e => match e with
    | Effect.openChannel k r => some (k, r)
    | _ => none)

/-- The peer lists written by the `storageSet` calls in a trace. -/
def storageSetCalls (trace : List Effect) : List (List P2PPeer) :=
  trace.filterMap (fun e => match e with
    | Effect.storageSet ps => some ps
    | _ => none)

/-- Runs `n` sequential `connectNewPeer` calls on one instance,
accumulating the combined effect trace. -/
def iterateConnectNewPeer (env : Env) : Nat → TransportState → TransportState × List Effect
  | 0, s => (s, [])
  | n + 1, s =>
      let step := connectNewPeer env s
      let rest := iterateConnectNewPeer env n step.1
      (rest.1, step.2.1 ++ rest.2)

/-- Trace bookkeeping: `listenCalls` distributes over trace concatenation. -/
theorem listenCalls_append (t1 t2 : List Effect) :
    listenCalls (t1 ++ t2) = listenCalls t1 ++ listenCalls t2 :=
  List.filterMap_append t1 t2 _

/-- Trace bookkeeping: a per-peer listen fan-out subscribes exactly to the
peers' pubKeys, in registry order. -/
theorem listenCalls_listen_fanout (l : List P2PPeer) :
    listenCalls (l.map (fun p => Effect.listenForEncryptedMessage p.pubKey)) =
      l.map (fun p => p.pubKey) := by
  induction l with
  | nil => rfl
  | cons p l ih => simpa [listenCalls] using ih

/-- Trace bookkeeping: the client-start and registry-read prefix holds no
listen subscription. -/
theorem listenCalls_base (t : List Effect) :
    listenCalls (Effect.clientStart :: Effect.storageGet :: t) = listenCalls t := rfl

/-- Concrete peer fixtures used by the closed test theorems. -/
def peerA : P2PPeer := ⟨"Alice", "A", "relay.example"⟩

def peerB : P2PPeer := ⟨"Bob", "B", "relay.example"⟩

def peerC : P2PPeer := ⟨"Carol", "C", "relay.example"⟩

/-- An environment in which every collaborator call succeeds. -/
def envAllOk : Env :=
  { storageSetOk := true
    sendOk := fun _ => true
    listenOk := fun _ => true
    openChannelOk := fun _ => true
    handshakeInfo := "hs" }

/-- An environment whose `sendMessage` collaborator succeeds only for the
pubKey `A`; sends to `B` and `C` are rejected. -/
def envBCFail : Env :=
  { storageSetOk := true
    sendOk := fun k => k == "A"
    listenOk := fun _ => true
    openChannelOk := fun _ => true
    handshakeInfo := "hs" }

/-- An environment whose `listenForEncryptedMessage` collaborator rejects
every subscription. -/
def envListenFail : Env :=
  { storageSetOk := true
    sendOk := fun _ => true
    listenOk := fun _ => false
    openChannelOk := fun _ => true
    handshakeInfo := "hs" }

/-- An environment whose `storage.set` collaborator rejects every write. -/
def envStoreFail : Env :=
  { storageSetOk := false
    sendOk := fun _ => true
    listenOk := fun _ => true
    openChannelOk := fun _ => true
    handshakeInfo := "hs" }

/-- A connected transport knowing the three peers `A`, `B`, `C`. -/
def stateABC : TransportState :=
  { isConnected := TransportStatus.CONNECTED
    listeningForChannelOpenings := true
    storedPeers := [peerA, peerB, peerC] }

/-- A disconnected transport knowing only peer `A`. -/
def stateOnlyA : TransportState :=
  { isConnected := TransportStatus.NOT_CONNECTED
    listeningForChannelOpenings := false
    storedPeers := [peerA] }

/-- A connected transport with an empty registry, already listening. -/
def stateListening : TransportState :=
  { isConnected := TransportStatus.CONNECTED
    listeningForChannelOpenings := true
    storedPeers := [] }

/-- A freshly constructed transport: disconnected, not listening, empty
registry. -/
def freshState : TransportState :=
  { isConnected := TransportStatus.NOT_CONNECTED
    listeningForChannelOpenings := false
    storedPeers := [] }

/-- C1: broadcast over the registry `{A, B, C}` with the collaborator
failing for `B` and `C`. The code issues exactly one send per peer, but —
via `(await Promise.all(promises))[0]` — it rejects with the lone error of
the first failing send (`B`), not an aggregate `BroadcastPartialFailure`
naming exactly the failed recipients, and without awaiting the remaining
settlements; the broadcast contract modelled from the spec yields the
aggregate `["B", "C"]` on the same input. -/
theorem broadcast_surfaces_single_error_not_aggregate :
    sendCalls (send envBCFail "m" none stateABC).2.1 = [("A", "m"), ("B", "m"), ("C", "m")] ∧
    (send envBCFail "m" none stateABC).2.2 =
      Except.error (TransportError.sendFailure "B") ∧
    specBroadcastResult envBCFail stateABC = Except.error ["B", "C"] :=
  ⟨rfl, rfl, rfl⟩

/-- C2 counterexample: with one known peer whose listen setup fails,
`connect()` rejects with that peer's channel failure and leaves the state
at `Connecting` — it does not transition to `Connected`. -/
theorem connect_rejects_on_listen_failure :
    (connect true envListenFail stateOnlyA).1.isConnected = TransportStatus.CONNECTING ∧
    (connect true envListenFail stateOnlyA).2.2 =
      ConnectOutcome.failed (TransportError.channelFailure "A") :=
  ⟨rfl, rfl⟩

/-- C2 amended: for a non-empty set of known peers, `connect()` still
issues the per-peer listen setup for every known peer, but it resolves and
transitions to `Connected` iff every individual setup succeeds; any
individual failure rejects the call and leaves the state at `Connecting`. -/
theorem connect_connected_iff_all_listens_ok (dApp : Bool) (env : Env) (s : TransportState)
    (hne : s.storedPeers ≠ []) :
    listenCalls (connect dApp env s).2.1 = s.storedPeers.map (fun p => p.pubKey) ∧
    (((connect dApp env s).1.isConnected = TransportStatus.CONNECTED ∧
        (connect dApp env s).2.2 = ConnectOutcome.resolved) ↔
      ∀ p ∈ s.storedPeers, env.listenOk p.pubKey = true) ∧
    ((∃ p ∈ s.storedPeers, env.listenOk p.pubKey = false) →
      (connect dApp env s).1.isConnected = TransportStatus.CONNECTING) := by
  have hpos : 0 < s.storedPeers.length := List.length_pos.mpr hne
  constructor
  · cases hf : s.storedPeers.find? (fun p => !(env.listenOk p.pubKey)) <;>
      simp [connect, hpos, hf, listenCalls_append, listenCalls_listen_fanout, listenCalls_base]
  constructor
  · cases hf : s.storedPeers.find? (fun p => !(env.listenOk p.pubKey)) with
    | none =>
        simp only [connect, hpos, if_pos, hf, superConnect]
        simp only [List.find?_eq_none, Bool.not_eq_true', Bool.not_eq_false] at hf
        simpa using hf
    | some p =>
        have hmem := List.mem_of_find?_eq_some hf
        have hp := List.find?_some hf
        simp only [Bool.not_eq_true'] at hp
        simp only [connect, hpos, if_pos, hf]
        constructor
        · rintro ⟨h1, -⟩
          exact absurd h1 (by simp)
        · intro hall
          exact absurd (hall p hmem) (by simp [hp])
  · rintro ⟨p, hmem, hno⟩
    cases hf : s.storedPeers.find? (fun p => !(env.listenOk p.pubKey)) with
    | none =>
        rw [List.find?_eq_none] at hf
        exact absurd (by simp [hno] : (!(env.listenOk p.pubKey)) = true) (by simpa using hf p hmem)
    | some q => simp [connect, hpos, hf]

/-- C2 amended, attested at a concrete input: with the single known peer
`A` and a collaborator accepting every listen, `connect` issues the listen
for `A`. -/
theorem connect_connected_iff_all_listens_ok_attest :
    listenCalls (connect true envAllOk stateOnlyA).2.1 =
      stateOnlyA.storedPeers.map (fun p => p.pubKey) :=
  (connect_connected_iff_all_listens_ok true envAllOk stateOnlyA (by decide)).1

/-- C3: a unicast send to a recipient absent from the registry fails with
`Recipient unknown`, issues zero collaborator sends, and leaves the state
untouched; for a recipient present in the registry it issues exactly one
collaborator send — to that recipient with that payload — and returns that
send's outcome. -/
theorem unicast_send_checks_registry_first (env : Env) (msg r : String) (s : TransportState) :
    ((∀ p ∈ s.storedPeers, p.pubKey ≠ r) →
      (send env msg (some r) s).2.2 = Except.error TransportError.recipientUnknown ∧
      sendCalls (send env msg (some r) s).2.1 = [] ∧
      (send env msg (some r) s).1 = s) ∧
    ((∃ p ∈ s.storedPeers, p.pubKey = r) →
      sendCalls (send env msg (some r) s).2.1 = [(r, msg)] ∧
      (send env msg (some r) s).2.2 =
        (if env.sendOk r then Except.ok () else Except.error (TransportError.sendFailure r)) ∧
      (send env msg (some r) s).1 = s) := by
  constructor
  · intro h
    have hany : s.storedPeers.any (fun p => p.pubKey == r) = false := by
      simp only [List.any_eq_false]
      intro p hp
      simpa using h p hp
    simp [send, hany, sendCalls]
  · rintro ⟨p, hp, he⟩
    have hany : s.storedPeers.any (fun p => p.pubKey == r) = true :=
      List.any_eq_true.mpr ⟨p, hp, by simp [he]⟩
    simp [send, hany, sendCalls]

/-- C3 attested at concrete inputs: sending to unknown `Z` over `{A, B, C}`
fails with `Recipient unknown`, and sending to known `A` issues exactly the
one send `(A, m)`. -/
theorem unicast_send_checks_registry_first_attest :
    (send envAllOk "m" (some "Z") stateABC).2.2 =
        Except.error TransportError.recipientUnknown ∧
    sendCalls (send envAllOk "m" (some "A") stateABC).2.1 = [("A", "m")] :=
  ⟨((unicast_send_checks_registry_first envAllOk "m" "Z" stateABC).1 (by decide)).1,
   ((unicast_send_checks_registry_first envAllOk "m" "A" stateABC).2
      ⟨peerA, by decide, rfl⟩).1⟩

/-- Number of `listenForChannelOpening` installs recorded in a trace. -/
def installCount (trace : List Effect) : Nat :=
  trace.count Effect.listenForChannelOpening

/-- Trace bookkeeping: `installCount` distributes over concatenation. -/
theorem installCount_append (t1 t2 : List Effect) :
    installCount (t1 ++ t2) = installCount t1 + installCount t2 :=
  List.count_append ..

/-- Trace bookkeeping: a handshake-info fetch is not an install. -/
theorem installCount_cons_handshake (t : List Effect) :
    installCount (Effect.getHandshakeInfo :: t) = installCount t := rfl

/-- Trace bookkeeping: an event emission is not an install. -/
theorem installCount_cons_emit (e : String) (p : Option String) (t : List Effect) :
    installCount (Effect.emit e p :: t) = installCount t := rfl

/-- Trace bookkeeping: a leading install adds one to the count. -/
theorem installCount_cons_install (t : List Effect) :
    installCount (Effect.listenForChannelOpening :: t) = installCount t + 1 := by
  simp [installCount, List.count_cons]

/-- Guard behaviour of `connectNewPeer` on an instance already listening:
no install, flag and state untouched. -/
theorem connectNewPeer_flag_true (env : Env) (s : TransportState)
    (h : s.listeningForChannelOpenings = true) :
    connectNewPeer env s =
      (s, [Effect.getHandshakeInfo,
        Effect.emit "P2P_LISTEN_FOR_CHANNEL_OPEN" (some env.handshakeInfo)],
       ConnectOutcome.pending) := by
  simp [connectNewPeer, h]

/-- Guard behaviour of `connectNewPeer` on an instance not yet listening:
one install, flag set. -/
theorem connectNewPeer_flag_false (env : Env) (s : TransportState)
    (h : s.listeningForChannelOpenings = false) :
    connectNewPeer env s =
      ({ s with listeningForChannelOpenings := true },
       [Effect.listenForChannelOpening, Effect.getHandshakeInfo,
        Effect.emit "P2P_LISTEN_FOR_CHANNEL_OPEN" (some env.handshakeInfo)],
       ConnectOutcome.pending) := by
  simp [connectNewPeer, h]

/-- C4: adding the same peer twice in sequence. Under the registry
invariant (at most one stored record per pubKey) and a working store: after
the first `addPeer` exactly one stored record carries `P.pubKey`; the
stored list changed iff no prior record shared `P.pubKey` (insertion iff
absent); and the second call is a complete no-op — identical state, a
successful return, and a trace holding only the registry read: no second
persist, no `openChannel`, no listen subscription. -/
theorem addPeer_duplicate_is_noop (env : Env) (P : P2PPeer) (s : TransportState)
    (hstore : env.storageSetOk = true)
    (hinv : (s.storedPeers.filter (fun p => p.pubKey == P.pubKey)).length ≤ 1) :
    (((addPeer env P s).1.storedPeers.filter (fun p => p.pubKey == P.pubKey)).length = 1) ∧
    ((addPeer env P s).1.storedPeers ≠ s.storedPeers ↔
      s.storedPeers.any (fun p => p.pubKey == P.pubKey) = false) ∧
    (addPeer env P ((addPeer env P s).1) =
      ((addPeer env P s).1, [Effect.storageGet], Except.ok ())) := by
  cases hany : s.storedPeers.any (fun p => p.pubKey == P.pubKey) with
  | true =>
      have h1 : addPeer env P s = (s, [Effect.storageGet], Except.ok ()) := by
        simp [addPeer, hany]
      obtain ⟨p, hp, hpk⟩ := List.any_eq_true.mp hany
      have hmem : p ∈ s.storedPeers.filter (fun q => q.pubKey == P.pubKey) :=
        List.mem_filter.mpr ⟨hp, hpk⟩
      have hpos : 0 < (s.storedPeers.filter (fun q => q.pubKey == P.pubKey)).length :=
        List.length_pos.mpr (List.ne_nil_of_mem hmem)
      refine ⟨by rw [h1]; exact le_antisymm hinv hpos, by rw [h1]; simp [hany],
        by rw [h1]; simp [addPeer, hany]⟩
  | false =>
      have hstate : (addPeer env P s).1 =
          { s with storedPeers := s.storedPeers ++ [⟨P.name, P.pubKey, P.relayServer⟩] } := by
        simp only [addPeer, hany, Bool.false_eq_true, if_false, hstore, if_true]
        split <;> rfl
      have hnil : s.storedPeers.filter (fun q => q.pubKey == P.pubKey) = [] := by
        rw [List.filter_eq_nil_iff]
        intro a ha
        simpa using List.any_eq_false.mp hany a ha
      refine ⟨?_, ?_, ?_⟩
      · rw [hstate]
        simp [List.filter_append, hnil]
      · rw [hstate]
        refine iff_of_true (fun h => ?_) rfl
        simpa using congrArg List.length h
      · rw [hstate]
        simp [addPeer]

/-- C4 attested at a concrete input: the second `addPeer` of `B` on the
one-peer registry `{A}` leaves the state of the first add untouched and
performs only the registry read. -/
theorem addPeer_duplicate_is_noop_attest :
    addPeer envAllOk peerB ((addPeer envAllOk peerB stateOnlyA).1) =
      ((addPeer envAllOk peerB stateOnlyA).1, [Effect.storageGet], Except.ok ()) :=
  (addPeer_duplicate_is_noop envAllOk peerB stateOnlyA rfl (by decide)).2.2

/-- C5: the channel-opening listener is installed at most once per
instance. Over any number `n` of sequential `connectNewPeer` calls, the
combined trace holds exactly one install when the instance was not yet
listening and `n ≥ 1`, and none when it already was — in particular never
more than one — and the guard flag ends set iff it started set or at least
one call ran. -/
theorem listener_installed_at_most_once (env : Env) (n : Nat) (s : TransportState) :
    installCount (iterateConnectNewPeer env n s).2 =
      (if s.listeningForChannelOpenings then 0 else min n 1) ∧
    installCount (iterateConnectNewPeer env n s).2 ≤ 1 ∧
    (iterateConnectNewPeer env n s).1.listeningForChannelOpenings =
      (s.listeningForChannelOpenings || decide (0 < n)) := by
  induction n generalizing s with
  | zero => simp [iterateConnectNewPeer, installCount]
  | succ n ih =>
      cases hflag : s.listeningForChannelOpenings with
      | true =>
          obtain ⟨ih1, ih2, ih3⟩ := ih s
          rw [hflag] at ih1 ih3
          simp only [if_true, Bool.true_or] at ih1 ih3
          refine ⟨?_, ?_, ?_⟩ <;>
            simp [iterateConnectNewPeer, connectNewPeer_flag_true env s hflag,
              installCount_cons_handshake, installCount_cons_emit, ih1, ih3, hflag]
      | false =>
          obtain ⟨ih1, ih2, ih3⟩ :=
            ih { s with listeningForChannelOpenings := true }
          simp at ih1 ih3
          refine ⟨?_, ?_, ?_⟩
          · simp [iterateConnectNewPeer, connectNewPeer_flag_false env s hflag,
              installCount_cons_handshake, installCount_cons_emit,
              installCount_cons_install, ih1]
          · simp [iterateConnectNewPeer, connectNewPeer_flag_false env s hflag,
              installCount_cons_handshake, installCount_cons_emit,
              installCount_cons_install, ih1]
          · simp [iterateConnectNewPeer, connectNewPeer_flag_false env s hflag, ih3]

/-- C6 counterexample: in the handshake new-peer callback the persist is
fire-and-forget. With a failing store, the callback for the unknown peer
`B` still completes successfully — no storage error reaches any caller —
and still performs the channel listen setup, while the stored view keeps
missing the peer. -/
theorem callback_swallows_storage_failure :
    (channelOpeningCallback envStoreFail "B" stateListening).2.2 = Except.ok () ∧
    listenCalls (channelOpeningCallback envStoreFail "B" stateListening).2.1 = ["B"] ∧
    (channelOpeningCallback envStoreFail "B" stateListening).1 = stateListening :=
  ⟨rfl, rfl, rfl⟩

/-- C6 amended: `addPeer`, `removePeer` and `removeAllPeers` await the
persist before reporting success, and on a storage failure each propagates
the error, leaves the stored peer view unchanged, and performs no
subsequent channel or unsubscribe call; the insertion performed by the
handshake new-peer callback instead persists fire-and-forget: its storage
failure is swallowed — the callback still completes successfully when the
listen succeeds — and the channel listen setup is performed regardless. -/
theorem mutations_propagate_storage_failure (env : Env) (P : P2PPeer) (k : String)
    (s : TransportState) (hfail : env.storageSetOk = false) :
    ((∀ p ∈ s.storedPeers, p.pubKey ≠ P.pubKey) →
      (addPeer env P s).2.2 = Except.error TransportError.storageFailure ∧
      (addPeer env P s).1 = s ∧
      openChannelCalls (addPeer env P s).2.1 = [] ∧
      listenCalls (addPeer env P s).2.1 = []) ∧
    ((removePeer env P s).2.2 = Except.error TransportError.storageFailure ∧
      (removePeer env P s).1 = s ∧
      Effect.unsubscribeFromEncryptedMessage P.pubKey ∉ (removePeer env P s).2.1) ∧
    ((removeAllPeers env s).2.2 = Except.error TransportError.storageFailure ∧
      (removeAllPeers env s).1 = s ∧
      Effect.unsubscribeFromEncryptedMessages ∉ (removeAllPeers env s).2.1) ∧
    ((∀ p ∈ s.storedPeers, p.pubKey ≠ k) → env.listenOk k = true →
      (channelOpeningCallback env k s).2.2 = Except.ok () ∧
      (channelOpeningCallback env k s).1 = s ∧
      listenCalls (channelOpeningCallback env k s).2.1 = [k]) := by
  refine ⟨?_, ?_, ?_, ?_⟩
  · intro h
    have hany : s.storedPeers.any (fun p => p.pubKey == P.pubKey) = false := by
      simp only [List.any_eq_false]
      intro p hp
      simpa using h p hp
    simp [addPeer, hany, hfail, openChannelCalls, listenCalls]
  · simp [removePeer, hfail]
  · simp [removeAllPeers, hfail]
  · intro h hlisten
    have hany : s.storedPeers.any (fun p => p.pubKey == k) = false := by
      simp only [List.any_eq_false]
      intro p hp
      simpa using h p hp
    simp [channelOpeningCallback, listen, hany, hfail, hlisten, listenCalls]

/-- C6 amended, attested at a concrete input: with a failing store,
`addPeer` of `B` on the registry `{A}` propagates the storage failure. -/
theorem mutations_propagate_storage_failure_attest :
    (addPeer envStoreFail peerB stateOnlyA).2.2 =
      Except.error TransportError.storageFailure :=
  ((mutations_propagate_storage_failure envStoreFail peerB "B" stateOnlyA rfl).1
    (by decide)).1

/-- C7: a dApp-role `connect()` on a fresh transport with an empty registry
starts the client once, installs the channel-opening listener once, fetches
the handshake advertisement once and passes it unmodified to the
`P2P_LISTEN_FOR_CHANNEL_OPEN` emit, and issues zero per-peer `openChannel`
or encrypted-message listen calls. -/
theorem connect_empty_registry_dapp (env : Env) (s : TransportState)
    (hempty : s.storedPeers = [])
    (hflag : s.listeningForChannelOpenings = false) :
    (connect true env s).2.1.count Effect.clientStart = 1 ∧
    installCount (connect true env s).2.1 = 1 ∧
    (connect true env s).2.1.count Effect.getHandshakeInfo = 1 ∧
    Effect.emit "P2P_LISTEN_FOR_CHANNEL_OPEN" (some env.handshakeInfo) ∈
      (connect true env s).2.1 ∧
    openChannelCalls (connect true env s).2.1 = [] ∧
    listenCalls (connect true env s).2.1 = [] := by
  have htrace : (connect true env s).2.1 =
      [Effect.clientStart, Effect.storageGet, Effect.listenForChannelOpening,
        Effect.getHandshakeInfo,
        Effect.emit "P2P_LISTEN_FOR_CHANNEL_OPEN" (some env.handshakeInfo)] := by
    simp [connect, hempty, connectNewPeer, hflag]
  rw [htrace]
  refine ⟨rfl, rfl, rfl, by simp, rfl, rfl⟩

/-- C7 attested at a concrete input: the fresh transport in the all-ok
environment installs the listener exactly once during `connect`. -/
theorem connect_empty_registry_dapp_attest :
    installCount (connect true envAllOk freshState).2.1 = 1 :=
  (connect_empty_registry_dapp envAllOk freshState rfl rfl).2.1

/-- C8: `removePeer` (with a working store) always invokes the per-identity
unsubscribe, whether or not a record was deleted; and removing an identity
absent from the registry deletes nothing — the list written back to storage
and the resulting stored view both equal the original list, and the call
completes successfully. -/
theorem removePeer_absent_id_no_deletion (env : Env) (q : P2PPeer) (s : TransportState)
    (hstore : env.storageSetOk = true) :
    Effect.unsubscribeFromEncryptedMessage q.pubKey ∈ (removePeer env q s).2.1 ∧
    ((∀ p ∈ s.storedPeers, p.pubKey ≠ q.pubKey) →
      (removePeer env q s).1.storedPeers = s.storedPeers ∧
      (removePeer env q s).2.2 = Except.ok () ∧
      storageSetCalls (removePeer env q s).2.1 = [s.storedPeers]) := by
  have hfilter : ∀ h : (∀ p ∈ s.storedPeers, p.pubKey ≠ q.pubKey),
      s.storedPeers.filter (fun p => p.pubKey != q.pubKey) = s.storedPeers := by
    intro h
    rw [List.filter_eq_self]
    intro p hp
    simpa using h p hp
  refine ⟨by simp [removePeer, hstore], fun h => ?_⟩
  simp [removePeer, hstore, hfilter h, storageSetCalls]

/-- C8 attested at a concrete input: removing the unknown peer `B` from the
registry `{A}` performs the unsubscribe for `B`. -/
theorem removePeer_absent_id_no_deletion_attest :
    Effect.unsubscribeFromEncryptedMessage peerB.pubKey ∈
      (removePeer envAllOk peerB stateOnlyA).2.1 :=
  (removePeer_absent_id_no_deletion envAllOk peerB stateOnlyA rfl).1

/-- C9: `reconnect` never changes the transport status or the registry —
`_isConnected` and the stored peers are identical before and after every
call; in the dApp (initiating) role it does exactly what a fresh pairing
trigger (`connectNewPeer`) does, and outside that role it performs no
collaborator call and returns the state untouched. -/
theorem reconnect_preserves_transport_state (dApp : Bool) (env : Env) (s : TransportState) :
    (reconnect dApp env s).1.isConnected = s.isConnected ∧
    (reconnect dApp env s).1.storedPeers = s.storedPeers ∧
    (dApp = true → reconnect dApp env s = connectNewPeer env s) ∧
    (dApp = false → reconnect dApp env s = (s, [], ConnectOutcome.resolved)) := by
  cases dApp <;> cases hf : s.listeningForChannelOpenings <;>
    simp [reconnect, connectNewPeer, hf]

/-- C9 attested at a concrete input: outside the dApp role, `reconnect` on
the connected three-peer transport returns the state untouched with an
empty trace. -/
theorem reconnect_preserves_transport_state_attest :
    reconnect false envAllOk stateABC = (stateABC, [], ConnectOutcome.resolved) :=
  (reconnect_preserves_transport_state false envAllOk stateABC).2.2.2 rfl

/-- C10: a peer inserted by the handshake new-peer callback is stored as
`{ name: '', pubKey, relayServer: '' }` — only the received pubKey carries
information — whereas a peer added explicitly through `addPeer` is stored
with exactly the `name`, `pubKey` and `relayServer` it was given. -/
theorem inserted_peer_records (env : Env) (k : String) (P : P2PPeer) (s : TransportState)
    (hstore : env.storageSetOk = true) :
    ((∀ p ∈ s.storedPeers, p.pubKey ≠ k) →
      (channelOpeningCallback env k s).1.storedPeers =
        s.storedPeers ++ [{ name := "", pubKey := k, relayServer := "" }]) ∧
    ((∀ p ∈ s.storedPeers, p.pubKey ≠ P.pubKey) →
      (addPeer env P s).1.storedPeers =
        s.storedPeers ++ [{ name := P.name, pubKey := P.pubKey, relayServer := P.relayServer }]) := by
  constructor
  · intro h
    have hany : s.storedPeers.any (fun p => p.pubKey == k) = false := by
      simp only [List.any_eq_false]
      intro p hp
      simpa using h p hp
    simp only [channelOpeningCallback, hany, Bool.false_eq_true, if_false, hstore, if_true]
    split <;> rfl
  · intro h
    have hany : s.storedPeers.any (fun p => p.pubKey == P.pubKey) = false := by
      simp only [List.any_eq_false]
      intro p hp
      simpa using h p hp
    simp only [addPeer, hany, Bool.false_eq_true, if_false, hstore, if_true]
    split <;> rfl

/-- C10 attested at concrete inputs: the callback for the new pubKey `B`
over `{A}` stores the blank-named record, while `addPeer` of `B` stores
Bob's full record. -/
theorem inserted_peer_records_attest :
    (channelOpeningCallback envAllOk "B" stateOnlyA).1.storedPeers =
        [peerA, { name := "", pubKey := "B", relayServer := "" }] ∧
    (addPeer envAllOk peerB stateOnlyA).1.storedPeers =
        [peerA, { name := "Bob", pubKey := "B", relayServer := "relay.example" }] :=
  ⟨(inserted_peer_records envAllOk "B" peerB stateOnlyA rfl).1 (by decide),
   (inserted_peer_records envAllOk "B" peerB stateOnlyA rfl).2 (by decide)⟩

end BeaconP2P
